import Mathlib

/-!
Verification development for the ats-node-test executor
(`ats_node_test/executor.py`, `flash_esp32.py`, `hardware.py`).
The Python source is shallowly embedded: file contents, subprocess
outcomes and serial-channel behaviour are explicit inputs, and each
Python function becomes a pure Lean function over those inputs.
-/

namespace AtsNode

/-- Cheap character-list test: `needle` occurs at the head of `hay`. -/
def strLeads : List Char → List Char → Bool
  | [], _ => true
  | _ :: _, [] => false
  | a :: as, b :: bs => a == b && strLeads as bs

/-- The needle occurs somewhere inside the haystack (Python `in`). -/
def strFindSub (needle : List Char) : List Char → Bool
  | [] => strLeads needle []
  | b :: bs => strLeads needle (b :: bs) || strFindSub needle bs

/-- Python substring test `needle in hay` on strings. -/
def hasSub (hay needle : String) : Bool :=
  strFindSub needle.data hay.data

/-- Outcome of one `subprocess.run(cmd, check=True)` call: either exit
code zero, or `CalledProcessError` carrying the captured stderr text. -/
inductive SubprocResult where
  | ok
  | err (stderr : String)

/-- Port-busy classification from `flash_esp32.flash_firmware`
(lines 92-95): case-sensitive substring match on the stderr text. -/
def isPortErr (stderr : String) : Bool :=
  hasSub stderr "could not open" || hasSub stderr "Errno 5"
    || hasSub stderr "Input/output error" || hasSub stderr "port is busy"

/-- Result of the flasher: the returned boolean, how many subprocess
attempts were made, and the attempt numbers right after which
`try_reset_serial_port` (Port Recovery) was invoked. -/
structure FlashResult where
  success : Bool
  calls : Nat
  recoveryAt : List Nat
deriving DecidableEq

/-- The retry loop of `flash_firmware` (lines 80-104). `pending` is the
list of remaining attempt numbers (`range(1, max_attempts + 1)`), `made`
counts subprocess calls so far, `recs` records recovery invocations.
On a `CalledProcessError`, a port-busy stderr on attempt 1 invokes Port
Recovery and retries; later port-busy errors retry after a backoff; any
other failure (or budget exhaustion) breaks out and returns false. -/
def flashLoop (runCmd : Nat → SubprocResult) (recoveryWorks : Bool) :
    List Nat → Nat → List Nat → FlashResult
  | [], made, recs => ⟨false, made, recs⟩
  | attempt :: rest, made, recs =>
    match runCmd attempt with
    | SubprocResult.ok => ⟨true, made + 1, recs⟩
    | SubprocResult.err stderr =>
      let ipe := isPortErr stderr
      if ipe && attempt == 1 then
        let recs2 := recs ++ [attempt]
        if recoveryWorks then
          flashLoop runCmd recoveryWorks rest (made + 1) recs2
        else if decide (attempt < 3) && ipe then
          flashLoop runCmd recoveryWorks rest (made + 1) recs2
        else
          ⟨false, made + 1, recs2⟩
      else if decide (attempt < 3) && ipe then
        flashLoop runCmd recoveryWorks rest (made + 1) recs
      else
        ⟨false, made + 1, recs⟩

/-- `flash_esp32.flash_firmware` (lines 32-112). `portFound` is whether a
serial port was supplied or detected, `fwExists` whether the firmware
file exists. `precheckExc` is the exception text raised while opening the
port in the pre-flight probe (lines 47-59), `none` when the open
succeeded; the probe only prints a hint and always falls through to the
esptool retry loop. -/
def flash_firmware (portFound fwExists : Bool) (precheckExc : Option String)
    (runCmd : Nat → SubprocResult) (recoveryWorks : Bool) : FlashResult :=
  if !portFound then ⟨false, 0, []⟩
  else if !fwExists then ⟨false, 0, []⟩
  else
    let _hint : Bool :=
      match precheckExc with
      | some msg =>
          hasSub msg "Errno 5" || hasSub msg "Input/output error"
            || hasSub msg "could not open"
      | none => false
    flashLoop runCmd recoveryWorks [1, 2, 3] 0 []

/-- View of a file on disk: absent, present but unreadable (reads raise
an exception that the executor catches), or readable with contents. -/
inductive FileView where
  | absent
  | unreadable
  | readable (contents : String)
deriving DecidableEq

/-- Reading a file with a caught exception handler: contents when the
file exists and the read succeeds, otherwise nothing. This is the
`load` side of the Boot Evidence Store (executor lines 117-124). -/
def readFile : FileView → Option String
  | FileView.readable s => some s
  | _ => none

/-- Python truthiness of an optional string: `None` and `""` are falsy. -/
def pyFalsy : Option String → Bool
  | none => true
  | some s => decide (s = "")

/-- One buffered `f.write` on an open handle appends to what was already
written through that handle. -/
def fwrite (contents piece : String) : String := contents ++ piece

/-- The `save` side of the Boot Evidence Store (executor lines 729-734):
`open(path, "w")` truncates whatever was there, then the captured data
and a final newline are written. -/
def saveBootEvidence (_prev : FileView) (data : String) : FileView :=
  FileView.readable (fwrite (fwrite "" data) "\n")

/-- Evidence-source selection in `run_test_runner` (executor lines
113-135): prefer `boot_messages.log` in the results directory; when its
contents are falsy also consult the passed boot-evidence file and, on a
successful read, copy its contents into `boot_messages.log`. Returns the
selected `boot_messages_data` and the log state afterwards. -/
def selectEvidence (log bootFile : FileView) : Option String × FileView :=
  let d1 := readFile log
  if pyFalsy d1 then
    match bootFile with
    | FileView.readable s => (some s, FileView.readable s)
    | _ => (d1, log)
  else (d1, log)

/-- Boot-signal tokens searched in the captured evidence by the
reconciliation workaround (executor line 457). -/
def bootPatterns : List String :=
  ["rst:", "ets Jun", "ESP-IDF", "boot:", "I (", "E (", "W ("]

/-- Tokens of `bootPatterns` occurring in the evidence (line 458). -/
def foundBootPatterns (data : String) : List String :=
  bootPatterns.filter (fun p => hasSub data p)

/-- Status strings used in the test dictionaries. -/
inductive Status where
  | PASS
  | FAIL
  | SKIP
deriving DecidableEq

/-- One entry of the `tests` list built by `run_test_runner`. -/
structure TestEntry where
  name : String
  status : Status
  failure : String
deriving DecidableEq

/-- Reconciliation of one test-procedure run (executor lines 442-495),
as a function of its exit code, captured stdout/stderr, and the selected
boot evidence. Mirrors the three branches: the workaround that overrides
a reported UART-validation failure when captured evidence holds a boot
token, the honoring of a reported UART-validation success, and the
default exit-code rule. -/
def runnerOutcome (rc : Int) (out errS : String)
    (bootData : Option String) : TestEntry :=
  let failedUart := (!decide (rc = 0))
      && hasSub out "UART boot validation FAILED"
  let passedUart := hasSub out "UART boot validation PASSED"
      || hasSub out "boot patterns found in boot_messages.log"
  if failedUart && !pyFalsy bootData then
    let d := bootData.getD ""
    if !(foundBootPatterns d).isEmpty then
      ⟨"test_execution", Status.PASS, ""⟩
    else
      ⟨"test_execution", Status.FAIL,
        if !decide (errS = "") then errS else "UART boot validation failed"⟩
  else if passedUart then
    ⟨"test_execution", Status.PASS, ""⟩
  else
    ⟨"test_execution",
      if decide (rc = 0) then Status.PASS else Status.FAIL,
      if !decide (rc = 0) then errS else ""⟩

/-- Result of `run_test_runner`: the `tests` list, the state of
`boot_messages.log` afterwards, and whether the external test procedure
was actually spawned. -/
structure RunnerResult where
  tests : List TestEntry
  logAfter : FileView
  procRan : Bool
deriving DecidableEq

/-- `executor.run_test_runner` (lines 105-517). `runnerExists` is
whether `run_tests.sh` exists in the workspace; `proc` is the subprocess
outcome (exit code, stdout, stderr) or the text of an execution-level
exception. Evidence is selected from the log and the passed file before
the procedure runs; the in-place rewriting of the external script only
affects the external procedure, which is an input here. -/
def run_test_runner (runnerExists : Bool) (log bootFile : FileView)
    (proc : Except String (Int × String × String)) : RunnerResult :=
  let sel := selectEvidence log bootFile
  if runnerExists then
    match proc with
    | Except.ok (rc, out, errS) =>
        ⟨[runnerOutcome rc out errS sel.1], sel.2, true⟩
    | Except.error e =>
        ⟨[⟨"test_execution", Status.FAIL, e⟩], sel.2, true⟩
  else
    ⟨[⟨"test_execution", Status.SKIP, "Test runner not found"⟩], sel.2, false⟩

/-- Count of serial handles currently open; tracks whether the channel
was closed again on every exit path. -/
structure ResState where
  openHandles : Nat
deriving DecidableEq

/-- Effect of `serial.Serial(...)` on the handle count. -/
def serOpen (s : ResState) : ResState := ⟨s.openHandles + 1⟩

/-- Effect of `ser.close()` on the handle count. -/
def serClose (s : ResState) : ResState := ⟨s.openHandles - 1⟩

/-- How one invocation of the boot-capture routine plays out on the
hardware: pyserial missing, the open itself raises, some call raises
after the open succeeded (the handler catches it and returns), or the
read loop runs to completion delivering a list of byte chunks. -/
inductive SerialTrace where
  | importErr
  | openFails (msg : String)
  | failsAfterOpen (msg : String)
  | completes (chunks : List (List Nat))

/-- Whether a byte is a UTF-8 continuation byte. -/
def isCont (b : Nat) : Bool := decide (0x80 ≤ b) && decide (b ≤ 0xBF)

/-- Fuel-indexed worker for `utf8Ignore`; fuel is an upper bound on the
number of bytes left, so it never runs out on a real input. -/
def utf8IgnoreGo : Nat → List Nat → List Char
  | 0, _ => []
  | _, [] => []
  | fuel + 1, b :: bs =>
    if decide (b ≤ 0x7F) then
      Char.ofNat b :: utf8IgnoreGo fuel bs
    else if decide (0xC2 ≤ b) && decide (b ≤ 0xDF) then
      match bs with
      | [] => []
      | b1 :: bs1 =>
        if isCont b1 then
          Char.ofNat ((b - 0xC0) * 64 + (b1 - 0x80)) :: utf8IgnoreGo fuel bs1
        else
          utf8IgnoreGo fuel bs
    else if decide (0xE0 ≤ b) && decide (b ≤ 0xEF) then
      match bs with
      | b1 :: b2 :: bs2 =>
        let okB1 :=
          if b == 0xE0 then decide (0xA0 ≤ b1) && decide (b1 ≤ 0xBF)
          else if b == 0xED then decide (0x80 ≤ b1) && decide (b1 ≤ 0x9F)
          else isCont b1
        if okB1 && isCont b2 then
          Char.ofNat ((b - 0xE0) * 4096 + (b1 - 0x80) * 64 + (b2 - 0x80))
            :: utf8IgnoreGo fuel bs2
        else
          utf8IgnoreGo fuel bs
      | _ => []
    else if decide (0xF0 ≤ b) && decide (b ≤ 0xF4) then
      match bs with
      | b1 :: b2 :: b3 :: bs3 =>
        let okB1 :=
          if b == 0xF0 then decide (0x90 ≤ b1) && decide (b1 ≤ 0xBF)
          else if b == 0xF4 then decide (0x80 ≤ b1) && decide (b1 ≤ 0x8F)
          else isCont b1
        if okB1 && isCont b2 && isCont b3 then
          Char.ofNat ((b - 0xF0) * 262144 + (b1 - 0x80) * 4096
              + (b2 - 0x80) * 64 + (b3 - 0x80)) :: utf8IgnoreGo fuel bs3
        else
          utf8IgnoreGo fuel bs
      | _ => []
    else
      utf8IgnoreGo fuel bs

/-- Python `bytes.decode("utf-8", errors="ignore")`: well-formed UTF-8
sequences become characters, malformed bytes are skipped (skipping
restarts at the byte after the offending lead byte; truncated trailing
sequences are dropped). -/
def utf8Ignore (bs : List Nat) : List Char :=
  utf8IgnoreGo bs.length bs

/-- `executor.test_uart_read_directly` (lines 37-102) with explicit
resource accounting. On the completed path the port is opened, buffers
flushed, chunks accumulated, the port closed, and the data decoded;
`success` is computed from the raw byte count. The `except ImportError`
path returns `(False, "")`; the generic `except Exception` path returns
`(False, str(e))` straight from the handler. -/
def test_uart_read_directly (tr : SerialTrace) (s : ResState) :
    (Bool × String) × ResState :=
  match tr with
  | SerialTrace.importErr => ((false, ""), s)
  | SerialTrace.openFails msg => ((false, msg), s)
  | SerialTrace.failsAfterOpen msg => ((false, msg), serOpen s)
  | SerialTrace.completes chunks =>
    let s1 := serOpen s
    let data := chunks.flatten
    let s2 := serClose s1
    let dataStr := String.mk (utf8Ignore data)
    ((decide (0 < data.length), dataStr), s2)

/-- How one baud-rate attempt of the buffer-flush probe (executor lines
649-664) plays out. -/
inductive FlushStep where
  | openFails
  | failsAfterOpen
  | completes

/-- One iteration of the flush loop: open, reset both buffers, close.
A raised `SerialException`/`OSError` is caught by the loop and the next
baud rate is tried; an exception after the open leaves the handle open. -/
def flushAttempt : FlushStep → ResState → Bool × ResState
  | FlushStep.openFails, s => (false, s)
  | FlushStep.failsAfterOpen, s => (false, serOpen s)
  | FlushStep.completes, s => (true, serClose (serOpen s))

/-- The `for baud in [115200, 9600]` flush loop with `break` on the
first success. -/
def flushBuffers : List FlushStep → ResState → Bool × ResState
  | [], s => (false, s)
  | st :: rest, s =>
    let r := flushAttempt st s
    if r.1 then (true, r.2) else flushBuffers rest r.2

/-- Manifest dictionary as the orchestrator sees it after a successful
load. `load_manifest` (manifest.py lines 28-31) validates only the
top-level keys `build`, `device`, `test_plan`, `timestamps`, so the
nested reads `build.artifact.name` and `build.device.target` performed
by `get_artifact_name` / `get_device_target` (executor lines 539-540,
outside the guarded block) can still fail: a missing nested key is
`none` here and an uncaught `KeyError` there. `build.build_number` is
read inside the guarded block at line 533, so once the load step
succeeds it is known to be present. -/
structure ManifestData where
  buildNumber : Nat
  artifactName : Option String
  deviceTarget : Option String
deriving DecidableEq

/-- One run of `executor.main` as seen from outside: the manifest-load
outcome (with its possibly missing nested fields), the hardware and
filesystem state, and the behaviour of the external tools. -/
structure MainWorld where
  manifest : Except String ManifestData
  portFound : Bool
  fwExists : Bool
  precheckExc : Option String
  flashRun : Nat → SubprocResult
  recoveryWorks : Bool
  resultsLog : FileView
  unlinkOk : Bool
  stale : Bool
  capture : SerialTrace
  runnerExists : Bool
  proc : Except String (Int × String × String)

/-- Observable outcome of `executor.main`: the process exit code,
whether the reporting phase (summary, JUnit, meta) ran, the summary
status, the `tests` list, and whether the test procedure was invoked. -/
structure MainResult where
  exitCode : Nat
  reportsWritten : Bool
  summaryStatus : Option Status
  tests : List TestEntry
  procInvoked : Bool
deriving DecidableEq

/-- `executor.main` (lines 520-800). A manifest-load failure prints a
diagnostic and calls `sys.exit(1)` before any reporting (lines 531-536).
Next, `get_artifact_name` and `get_device_target` (lines 539-540) read
nested manifest keys outside any exception handler: a missing key
raises an uncaught `KeyError` and the process dies (exit status 1)
before any reporting. Otherwise: an unrecognized device target sets
exit code 1; for `esp32` the flasher runs and a failure sets exit
code 1. With exit code 0 the run clears `boot_messages.log`, performs
the staleness-triggered fresh reset and immediate capture (saving
non-falsy captured text to `boot_messages.log`, which is also the path
passed on to the runner), invokes the test runner, and fails the run if
any test entry is FAIL; with a non-zero exit code the `tests` list is
the single SKIP entry. Reporting then always runs and the process exits
with the exit code. -/
def mainModel (w : MainWorld) : MainResult :=
  match w.manifest with
  | Except.error _ => ⟨1, false, none, [], false⟩
  | Except.ok m =>
    match m.artifactName, m.deviceTarget with
    | none, _ => ⟨1, false, none, [], false⟩
    | some _, none => ⟨1, false, none, [], false⟩
    | some _, some deviceTarget =>
    let ec1 : Nat :=
      if deviceTarget = "esp32" then
        if (flash_firmware w.portFound w.fwExists w.precheckExc
            w.flashRun w.recoveryWorks).success then 0 else 1
      else 1
    let step2 : Nat × List TestEntry × Bool :=
      if ec1 = 0 then
        let log1 : FileView :=
          match w.resultsLog with
          | FileView.absent => FileView.absent
          | l => if w.unlinkOk then FileView.absent else l
        let cap : FileView × FileView :=
          if w.portFound && w.stale then
            let r := (test_uart_read_directly w.capture ⟨0⟩).1
            if r.1 && !decide (r.2 = "") then
              let saved := saveBootEvidence log1 r.2
              (saved, saved)
            else (log1, FileView.absent)
          else (log1, FileView.absent)
        let rr := run_test_runner w.runnerExists cap.1 cap.2 w.proc
        let ec2 : Nat :=
          if rr.tests.any (fun t => t.status == Status.FAIL) then 1 else ec1
        (ec2, rr.tests, rr.procRan)
      else
        (ec1, [⟨"test_execution", Status.SKIP, "Flash failed"⟩], false)
    ⟨step2.1, true,
      some (if step2.1 = 0 then Status.PASS else Status.FAIL),
      step2.2.1, step2.2.2⟩

end AtsNode

namespace AtsNode

/-- C1 counterexample: saving the bytes `"abc"` and loading the evidence
file back does not return `"abc"` — the file holds `"abc\n"`, because
`save` writes a trailing newline after the data. -/
theorem evidence_roundtrip_not_exact :
    readFile (saveBootEvidence FileView.absent "abc") ≠ some "abc" := by
  decide

/-- C1 amended: `save` followed by `load` returns the bytes passed to
`save` with one trailing newline appended, and a second `save` fully
replaces the first — the result does not depend on the prior file state,
so nothing accumulates across runs. -/
theorem evidence_roundtrip_with_newline (fs fs2 : FileView) (d1 d2 : String) :
    readFile (saveBootEvidence fs d1) = some (d1 ++ "\n")
    ∧ saveBootEvidence (saveBootEvidence fs d1) d2 = saveBootEvidence fs2 d2 := by
  constructor
  · show some (("" ++ d1) ++ "\n") = some (d1 ++ "\n")
    rw [String.empty_append]
  · rfl

/-- C5 counterexample: on the generic exception path the boot-capture
routine returns `found = false` together with the exception text as the
payload, so a false `found` does not imply an empty payload. -/
theorem capture_exception_payload_nonempty :
    (test_uart_read_directly
        (SerialTrace.failsAfterOpen "Device or resource busy") ⟨0⟩).1.1 = false
    ∧ (test_uart_read_directly
        (SerialTrace.failsAfterOpen "Device or resource busy") ⟨0⟩).1.2 ≠ "" := by
  exact ⟨rfl, by decide⟩

/-- C5 amended: on the completed-read path `found` equals raw captured
bytes being non-empty (the string payload is the lossy decoding of those
bytes); the missing-pyserial path returns `(false, "")`; the generic
exception path returns `found = false` with the exception text as the
payload, which can be non-empty. -/
theorem capture_found_matches_bytes (chunks : List (List Nat))
    (msg : String) (s : ResState) :
    (test_uart_read_directly (SerialTrace.completes chunks) s).1.1
        = !chunks.flatten.isEmpty
    ∧ (test_uart_read_directly SerialTrace.importErr s).1 = (false, "")
    ∧ (test_uart_read_directly (SerialTrace.failsAfterOpen msg) s).1
        = (false, msg) := by
  refine ⟨?_, rfl, rfl⟩
  show decide (0 < chunks.flatten.length) = !chunks.flatten.isEmpty
  cases h : chunks.flatten <;> simp [h]

/-- C8: the boot-capture routine opens the serial channel with a bare
`serial.Serial`, not a scoped `with` block; an exception raised between
the open and the `ser.close()` call is caught by the handler, which
returns with the handle still open. The multi-baud buffer-flush probe
leaks a handle the same way and then moves on to the next baud rate. -/
theorem serial_handle_leaked_on_exception :
    (test_uart_read_directly
        (SerialTrace.failsAfterOpen "read interrupted") ⟨0⟩).2.openHandles = 1
    ∧ (flushBuffers [FlushStep.failsAfterOpen, FlushStep.completes]
        ⟨0⟩).2.openHandles = 1 := by
  exact ⟨rfl, rfl⟩

/-- C10 counterexample: `boot_messages.log` exists and is readable with
empty contents, yet the passed boot-evidence file is consulted and its
contents (not the contents of the log) become the evidence. -/
theorem evidence_precedence_empty_log_falls_back :
    (selectEvidence (FileView.readable "")
        (FileView.readable "rst: boot ok")).1 = some "rst: boot ok"
    ∧ (selectEvidence (FileView.readable "")
        (FileView.readable "rst: boot ok")).1 ≠ some "" := by
  decide

/-- C10 amended: when `boot_messages.log` is readable with non-empty
contents those contents are the evidence and the passed file is ignored;
the passed file is consulted exactly when the log is absent, unreadable,
or readable but empty, and its contents are then copied into
`boot_messages.log` before the test procedure runs. -/
theorem evidence_precedence (s t : String) (bf : FileView) (hs : s ≠ "") :
    selectEvidence (FileView.readable s) bf = (some s, FileView.readable s)
    ∧ selectEvidence FileView.absent (FileView.readable t)
        = (some t, FileView.readable t)
    ∧ selectEvidence FileView.unreadable (FileView.readable t)
        = (some t, FileView.readable t)
    ∧ selectEvidence (FileView.readable "") (FileView.readable t)
        = (some t, FileView.readable t) := by
  refine ⟨?_, rfl, rfl, rfl⟩
  simp [selectEvidence, readFile, pyFalsy, hs]

/-- The retry loop makes the same decisions whether or not the driver
unbind/bind performed by Port Recovery reports success: a first-attempt
port-busy failure retries either way, so the returned result does not
depend on the recovery outcome. -/
theorem flashLoop_recovery_indep (runCmd : Nat → SubprocResult) (r1 r2 : Bool) :
    ∀ (l : List Nat) (made : Nat) (recs : List Nat),
      flashLoop runCmd r1 l made recs = flashLoop runCmd r2 l made recs := by
  intro l
  induction l with
  | nil => intro made recs; rfl
  | cons a rest ih =>
    intro made recs
    cases hr : runCmd a with
    | ok => simp [flashLoop, hr]
    | err s =>
      simp only [flashLoop, hr]
      by_cases hipe : isPortErr s = true
      · by_cases ha : a = 1
        · subst ha
          simp [hipe, ih]
        · have hb : (a == 1) = false := by
            simp [ha]
          simp [hipe, hb, ih]
      · have hipe2 : isPortErr s = false := by
          cases h : isPortErr s
          · rfl
          · exact absurd h hipe
        simp [hipe2]

/-- The attempt counter only grows along the retry loop. -/
theorem flashLoop_calls_ge (runCmd : Nat → SubprocResult) (r : Bool) :
    ∀ (l : List Nat) (made : Nat) (recs : List Nat),
      made ≤ (flashLoop runCmd r l made recs).calls := by
  intro l
  induction l with
  | nil => intro made recs; exact Nat.le_refl made
  | cons a rest ih =>
    intro made recs
    cases hr : runCmd a with
    | ok => simp [flashLoop, hr]
    | err s =>
      simp only [flashLoop, hr]
      split
      · split
        · exact Nat.le_trans (Nat.le_succ made) (ih (made + 1) _)
        · split
          · exact Nat.le_trans (Nat.le_succ made) (ih (made + 1) _)
          · exact Nat.le_succ made
      · split
        · exact Nat.le_trans (Nat.le_succ made) (ih (made + 1) _)
        · exact Nat.le_succ made

/-- A non-empty attempt list always performs its first subprocess call. -/
theorem flashLoop_cons_calls (runCmd : Nat → SubprocResult) (r : Bool)
    (a : Nat) (rest : List Nat) (made : Nat) (recs : List Nat) :
    made + 1 ≤ (flashLoop runCmd r (a :: rest) made recs).calls := by
  cases hr : runCmd a with
  | ok => simp [flashLoop, hr]
  | err s =>
    simp only [flashLoop, hr]
    split
    · split
      · exact flashLoop_calls_ge runCmd r rest (made + 1) _
      · split
        · exact flashLoop_calls_ge runCmd r rest (made + 1) _
        · exact Nat.le_refl (made + 1)
    · split
      · exact flashLoop_calls_ge runCmd r rest (made + 1) _
      · exact Nat.le_refl (made + 1)

/-- C2: when the flashing subprocess fails with a port-busy stderr on
attempts 1 and 2 and succeeds on attempt 3, `flash_firmware` returns
true, makes exactly 3 subprocess attempts (within the budget of 3), and
invokes Port Recovery exactly once, right after the first failure —
the second port-busy failure is retried without recovery. -/
theorem flash_portbusy_retry_recovery_once (runCmd : Nat → SubprocResult)
    (recoveryWorks : Bool) (pre : Option String) (s1 s2 : String)
    (h1 : runCmd 1 = SubprocResult.err s1) (hp1 : isPortErr s1 = true)
    (h2 : runCmd 2 = SubprocResult.err s2) (hp2 : isPortErr s2 = true)
    (h3 : runCmd 3 = SubprocResult.ok) :
    flash_firmware true true pre runCmd recoveryWorks = ⟨true, 3, [1]⟩ := by
  show flashLoop runCmd recoveryWorks [1, 2, 3] 0 [] = ⟨true, 3, [1]⟩
  simp only [flashLoop, h1, hp1]
  cases recoveryWorks <;> simp [flashLoop, h2, h3, hp2]

/-- A subprocess behaviour that is port-busy twice, then succeeds. -/
def busyTwiceRun : Nat → SubprocResult :=
  fun n => if n ≤ 2 then SubprocResult.err "port is busy" else SubprocResult.ok

/-- C2 witness: the retry scenario at a concrete subprocess behaviour. -/
theorem flash_portbusy_retry_recovery_once_witness :
    flash_firmware true true none busyTwiceRun true = ⟨true, 3, [1]⟩ :=
  flash_portbusy_retry_recovery_once busyTwiceRun true none
    "port is busy" "port is busy" rfl (by decide) rfl (by decide) rfl

/-- C9: with the port and the firmware file present, the pre-flight
serial-open probe never changes the result of `flash_firmware` — the
probe catches every exception it can raise, the retry loop still runs
(at least one subprocess attempt is made), and the returned result is
the same for any probe outcome and any Port Recovery outcome, i.e. it
depends only on the subprocess outcomes. -/
theorem flash_precheck_no_effect (p1 p2 : Option String) (r1 r2 : Bool)
    (runCmd : Nat → SubprocResult) :
    flash_firmware true true p1 runCmd r1 = flash_firmware true true p2 runCmd r2
    ∧ 1 ≤ (flash_firmware true true p1 runCmd r1).calls := by
  constructor
  · show flashLoop runCmd r1 [1, 2, 3] 0 []
        = flashLoop runCmd r2 [1, 2, 3] 0 []
    exact flashLoop_recovery_indep runCmd r1 r2 [1, 2, 3] 0 []
  · show 1 ≤ (flashLoop runCmd r1 [1, 2, 3] 0 []).calls
    exact flashLoop_cons_calls runCmd r1 1 [2, 3] 0 []

/-- C3: whenever the test-procedure output contains the literal marker
`UART boot validation FAILED` and the selected boot evidence contains at
least one recognized boot token, the runner produces exactly one PASS
entry, whatever the exit code: with a non-zero exit code the workaround
branch overrides to PASS, and with exit code zero the default rule
already yields PASS. -/
theorem reconciliation_failed_marker_pass (rc : Int) (out errS d : String)
    (log bf : FileView)
    (hsel : (selectEvidence log bf).1 = some d)
    (hm : hasSub out "UART boot validation FAILED" = true)
    (ht : foundBootPatterns d ≠ []) :
    (run_test_runner true log bf (Except.ok (rc, out, errS))).tests
      = [⟨"test_execution", Status.PASS, ""⟩] := by
  have hd : d ≠ "" := by
    intro he
    apply ht
    rw [he]
    decide
  have hfb : (foundBootPatterns d).isEmpty = false := by
    cases hfp : foundBootPatterns d
    · exact absurd hfp ht
    · rfl
  show [runnerOutcome rc out errS (selectEvidence log bf).1] = _
  rw [hsel]
  unfold runnerOutcome
  by_cases hrc : rc = 0
  · simp [hrc]
  · simp [hrc, hm, pyFalsy, hd, hfb]

/-- C3 witness: the reconciliation override at concrete inputs. -/
theorem reconciliation_failed_marker_pass_witness :
    (run_test_runner true (FileView.readable "rst: 0x1 (POWERON)")
        FileView.absent
        (Except.ok (1, "UART boot validation FAILED", "err text"))).tests
      = [⟨"test_execution", Status.PASS, ""⟩] :=
  reconciliation_failed_marker_pass 1 "UART boot validation FAILED" "err text"
    "rst: 0x1 (POWERON)" (FileView.readable "rst: 0x1 (POWERON)")
    FileView.absent (by decide) (by decide) (by decide)

/-- C4 counterexample: the output reports `UART boot validation PASSED`
(and also the FAILED marker), the exit code is non-zero, and non-empty
boot evidence without any recognized token was captured; the workaround
branch then yields FAIL, so the success marker alone does not guarantee
a PASS outcome. -/
theorem passed_marker_overridden_to_fail :
    hasSub "UART boot validation PASSED and UART boot validation FAILED"
        "UART boot validation PASSED" = true
    ∧ (run_test_runner true (FileView.readable "hello") FileView.absent
        (Except.ok (1,
          "UART boot validation PASSED and UART boot validation FAILED",
          "exit status 1"))).tests
      = [⟨"test_execution", Status.FAIL, "exit status 1"⟩] := by
  decide

/-- C4 amended: an output containing the success marker yields a PASS
outcome regardless of exit status, except when all of the following
hold: the exit status is non-zero, the output also contains the failure
marker, and captured non-empty boot evidence contains no recognized boot
token — in that one case the workaround branch takes precedence. -/
theorem passed_marker_honored (rc : Int) (out errS : String) (log bf : FileView)
    (hp : hasSub out "UART boot validation PASSED" = true)
    (hcarve : ¬(rc ≠ 0
        ∧ hasSub out "UART boot validation FAILED" = true
        ∧ pyFalsy (selectEvidence log bf).1 = false
        ∧ foundBootPatterns ((selectEvidence log bf).1.getD "") = [])) :
    (run_test_runner true log bf (Except.ok (rc, out, errS))).tests
      = [⟨"test_execution", Status.PASS, ""⟩] := by
  show [runnerOutcome rc out errS (selectEvidence log bf).1] = _
  unfold runnerOutcome
  by_cases hrc : rc = 0
  · simp [hrc, hp]
  · by_cases hf : hasSub out "UART boot validation FAILED" = true
    · by_cases hfal : pyFalsy (selectEvidence log bf).1 = false
      · have hne : foundBootPatterns ((selectEvidence log bf).1.getD "") ≠ [] := by
          intro h0
          exact hcarve ⟨hrc, hf, hfal, h0⟩
        have hfb : (foundBootPatterns
            ((selectEvidence log bf).1.getD "")).isEmpty = false := by
          cases hfp : foundBootPatterns ((selectEvidence log bf).1.getD "")
          · exact absurd hfp hne
          · rfl
        simp [hrc, hf, hfal, hfb]
      · have hfal2 : pyFalsy (selectEvidence log bf).1 = true := by
          cases h : pyFalsy (selectEvidence log bf).1
          · exact absurd h hfal
          · rfl
        simp [hrc, hf, hfal2, hp]
    · have hf2 : hasSub out "UART boot validation FAILED" = false := by
        cases h : hasSub out "UART boot validation FAILED"
        · rfl
        · exact absurd h hf
      simp [hrc, hf2, hp]

/-- C4 witness: the success marker with exit code zero yields PASS. -/
theorem passed_marker_honored_witness :
    (run_test_runner true FileView.absent FileView.absent
        (Except.ok (0, "UART boot validation PASSED", ""))).tests
      = [⟨"test_execution", Status.PASS, ""⟩] :=
  passed_marker_honored 0 "UART boot validation PASSED" "" FileView.absent
    FileView.absent (by decide) (fun h => absurd rfl h.1)

/-- C6: whenever the manifest loaded and its nested fields resolved
(which any run that reaches flashing presupposes), the device target is
`esp32`, and `flash_firmware` returns false, the run ends with exit
code 1, a FAIL summary status, the single SKIP test entry with detail
`Flash failed`, a completed reporting phase, and no invocation of the
test procedure. -/
theorem flash_fail_short_circuit (w : MainWorld) (m : ManifestData)
    (a : String)
    (hm : w.manifest = Except.ok m)
    (ha : m.artifactName = some a)
    (hd : m.deviceTarget = some "esp32")
    (hf : (flash_firmware w.portFound w.fwExists w.precheckExc
        w.flashRun w.recoveryWorks).success = false) :
    mainModel w = ⟨1, true, some Status.FAIL,
        [⟨"test_execution", Status.SKIP, "Flash failed"⟩], false⟩ := by
  unfold mainModel
  rw [hm]
  simp [ha, hd, hf]

/-- A run whose flash fails at once because no serial port is found. -/
def flashFailWorld : MainWorld :=
  ⟨Except.ok ⟨7, some "firmware.bin", some "esp32"⟩, false, true, none,
    fun _ => SubprocResult.ok, true, FileView.absent, true, false,
    SerialTrace.importErr, true, Except.ok (0, "", "")⟩

/-- C6 witness: the short-circuit at a concrete world. -/
theorem flash_fail_short_circuit_witness :
    mainModel flashFailWorld = ⟨1, true, some Status.FAIL,
        [⟨"test_execution", Status.SKIP, "Flash failed"⟩], false⟩ :=
  flash_fail_short_circuit flashFailWorld
    ⟨7, some "firmware.bin", some "esp32"⟩ "firmware.bin" rfl rfl rfl rfl

/-- A run whose manifest fails to load. -/
def manifestFailWorld : MainWorld :=
  ⟨Except.error "Manifest is empty", true, true, none,
    fun _ => SubprocResult.ok, true, FileView.absent, true, false,
    SerialTrace.importErr, true, Except.ok (0, "", "")⟩

/-- C7 counterexample: when the manifest fails to load, `main` prints a
diagnostic and exits with code 1 before the reporting phase, so no
Run Result artifacts are produced on that failure path. -/
theorem manifest_failure_skips_reports :
    (mainModel manifestFailWorld).reportsWritten = false
    ∧ (mainModel manifestFailWorld).exitCode = 1 := ⟨rfl, rfl⟩

/-- A run whose manifest loads (only top-level keys are validated) but
is missing the nested `build.artifact.name` key. -/
def missingFieldWorld : MainWorld :=
  ⟨Except.ok ⟨5, none, some "esp32"⟩, true, true, none,
    fun _ => SubprocResult.ok, true, FileView.absent, true, false,
    SerialTrace.importErr, true, Except.ok (0, "", "")⟩

/-- A loaded manifest missing the nested `build.artifact.name` key,
which `load_manifest` does not validate, also reaches no reporting:
the extraction at executor line 539 raises an uncaught `KeyError`, so
this boundary of the amended C7 statement is tight. -/
theorem missing_manifest_field_crashes_before_reports :
    (mainModel missingFieldWorld).reportsWritten = false
    ∧ (mainModel missingFieldWorld).tests = [] := ⟨rfl, rfl⟩

/-- C7 amended: on every run in which the manifest loads successfully
and the orchestrator's nested manifest reads resolve (both
`build.artifact.name` and `device.target` are present), the reporting
phase runs to completion no matter how flashing, capture, or the test
procedure fail. -/
theorem reports_always_written_after_manifest (w : MainWorld)
    (m : ManifestData) (a dt : String)
    (hm : w.manifest = Except.ok m)
    (ha : m.artifactName = some a)
    (hd : m.deviceTarget = some dt) :
    (mainModel w).reportsWritten = true := by
  unfold mainModel
  rw [hm]
  simp [ha, hd]

/-- A failing run (unknown device target, runner missing) whose manifest
still loads and whose fields resolve. -/
def reportsWorld : MainWorld :=
  ⟨Except.ok ⟨3, some "firmware.bin", some "stm32"⟩, true, true, none,
    fun _ => SubprocResult.ok, true, FileView.absent, true, false,
    SerialTrace.importErr, false, Except.error "not runnable"⟩

/-- C7 witness: reporting completes on a concrete failing run. -/
theorem reports_always_written_after_manifest_witness :
    (mainModel reportsWorld).reportsWritten = true :=
  reports_always_written_after_manifest reportsWorld
    ⟨3, some "firmware.bin", some "stm32"⟩ "firmware.bin" "stm32" rfl rfl rfl

/-- C10 witness: the amended precedence statement at concrete inputs. -/
theorem evidence_precedence_witness :
    selectEvidence (FileView.readable "rst: up") FileView.absent
        = (some "rst: up", FileView.readable "rst: up")
    ∧ selectEvidence FileView.absent (FileView.readable "x")
        = (some "x", FileView.readable "x")
    ∧ selectEvidence FileView.unreadable (FileView.readable "x")
        = (some "x", FileView.readable "x")
    ∧ selectEvidence (FileView.readable "") (FileView.readable "x")
        = (some "x", FileView.readable "x") :=
  evidence_precedence "rst: up" "x" FileView.absent (by decide)

end AtsNode
